import Mathlib

/-!
Shallow embedding of the LED-intensity controller (PIC24 firmware).

Machine integers are modelled as `Nat`, with an explicit `% 2^w` at the
points where the C code performs a narrowing cast.  The ADC and the
millisecond delay service are external collaborators: an ADC read is
modelled by passing the fresh sample as an argument, and `delay_ms`
(which only touches Timer3, excluded from the model per the spec's
scope) has no modelled effect.  UART transmission is modelled by
appending the transmitted characters to an output log.

Enum `state_t` (stateMachine.h) is encoded by its C integer value:
OFF_MODE = 0, OFF_BLINK = 1, ON_MODE = 2, ON_BLINK = 3,
TRANSMIT_UART_ON = 4, TRANSMIT_UART_BLINK = 5.
-/

namespace LedCtrl

/-- Struct `PWMControl` from PWM.h.  `blinkEnabled`/`blinkState` are
`uint8_t` used as C booleans (0 = false, nonzero = true). -/
structure PWMControl where
  period : Nat
  baseDutyCycle : Nat
  blinkDutyCycle : Nat
  currentDutyCycle : Nat
  blinkEnabled : Nat
  blinkState : Nat
  adcValue : Nat
  deriving DecidableEq, Repr

/-- Struct `ButtonState` from IOs.h. -/
structure ButtonState where
  pressed : Nat
  newState : Nat
  prevState : Nat
  deriving DecidableEq, Repr

/-- One hardware timer's registers (PRx, TMRx, TxCON.TON bit). -/
structure TimerState where
  pr : Nat
  tmr : Nat
  ton : Nat
  deriving DecidableEq, Repr

/-- The global state touched by the embedded core: the `pwmControl`
record, the `pwmCounter` and `systemState.currentState` globals, the
LED output latch, the three `buttons` records, Timer1 and Timer2
registers, and the log of characters sent over UART2. -/
structure Sys where
  pwmControl : PWMControl
  pwmCounter : Nat
  currentState : Nat
  led : Nat
  button0 : ButtonState
  button1 : ButtonState
  button2 : ButtonState
  timer1 : TimerState
  timer2 : TimerState
  out : List Char
  deriving DecidableEq, Repr

/-- C logical negation `!x` on a `uint8_t`. -/
def cnot (x : Nat) : Nat := if x = 0 then 1 else 0

/-- Embedding of `startTimer1` (timeDelay.c): `PR1 = pr_val; T1CONbits.TON = 1;`. -/
def startTimer1 (prVal : Nat) (s : Sys) : Sys :=
  { s with timer1 := { s.timer1 with pr := prVal, ton := 1 } }

/-- Embedding of `stopTimer1` (timeDelay.c): `TMR1 = 0; T1CONbits.TON = 0;`. -/
def stopTimer1 (s : Sys) : Sys :=
  { s with timer1 := { s.timer1 with tmr := 0, ton := 0 } }

/-- Embedding of `startTimer2` (timeDelay.c):
`PR2 = (uint16_t)((uint32_t)time_ms * 500 / 128); T2CONbits.TON = 1;`. -/
def startTimer2 (timeMs : Nat) (s : Sys) : Sys :=
  { s with timer2 := { s.timer2 with pr := timeMs * 500 / 128 % 65536, ton := 1 } }

/-- Embedding of `stopTimer2` (timeDelay.c): `TMR2 = 0; PR2 = 0; T2CONbits.TON = 0;`. -/
def stopTimer2 (s : Sys) : Sys :=
  { s with timer2 := { s.timer2 with tmr := 0, pr := 0, ton := 0 } }

/-- Embedding of `updateBrightness(overrideDutyCycle)` (PWM.c).  The fresh ADC
sample returned by `do_ADC()` is passed in as `sample` (the ADC is an
external collaborator producing a 10-bit value).  The `(uint8_t)` cast
on the scaled duty cycle is the `% 256`. -/
def updateBrightness (overrideDutyCycle sample : Nat) (s : Sys) : Sys :=
  let s1 := startTimer1 s.pwmControl.period s
  let s2 := { s1 with pwmControl := { s1.pwmControl with adcValue := sample } }
  let base := if overrideDutyCycle = 0
    then s2.pwmControl.adcValue * s2.pwmControl.period / 1023 % 256
    else overrideDutyCycle
  let s3 := { s2 with pwmControl := { s2.pwmControl with baseDutyCycle := base } }
  if s3.pwmControl.blinkEnabled = 0 then
    { s3 with pwmControl :=
        { s3.pwmControl with currentDutyCycle := s3.pwmControl.baseDutyCycle } }
  else
    let s4 := { s3 with pwmControl :=
        { s3.pwmControl with blinkDutyCycle := s3.pwmControl.baseDutyCycle } }
    { s4 with pwmControl :=
        { s4.pwmControl with currentDutyCycle :=
            if s4.pwmControl.blinkState = 0 then 0 else s4.pwmControl.blinkDutyCycle } }

/-- Embedding of `blink` (PWM.c): `blinkEnabled = 1; startTimer2(500);`. -/
def blink (s : Sys) : Sys :=
  startTimer2 500 { s with pwmControl := { s.pwmControl with blinkEnabled := 1 } }

/-- Embedding of `stopBlink` (PWM.c): `blinkEnabled = 0; stopTimer2();`. -/
def stopBlink (s : Sys) : Sys :=
  stopTimer2 { s with pwmControl := { s.pwmControl with blinkEnabled := 0 } }

/-- Divisor computed by the `for` loop in `DispNum` (UART2.c):
starts at 1 and is multiplied by 10 (as `uint16_t`) `digits - 1`
times, giving `10 ^ (digits - 1)` for the call sites used here. -/
def dispNumDivisor : Nat → Nat
  | 0 => 1
  | 1 => 1
  | n + 2 => dispNumDivisor (n + 1) * 10 % 65536

/-- The `do { ... } while (divisor)` loop of `DispNum` (UART2.c): emit
`'0' + (number / divisor) % 10` and divide `divisor` by 10 until it is
zero.  The divisor on entry is always at least 1, so the check-first
formulation here emits exactly the same characters as the C do-while. -/
def dispNumLoop (number : Nat) (divisor : Nat) : List Char :=
  if h : divisor = 0 then []
  else Char.ofNat (48 + number / divisor % 10) :: dispNumLoop number (divisor / 10)
termination_by divisor
decreasing_by exact Nat.div_lt_self (Nat.pos_of_ne_zero h) (by norm_num)

/-- Embedding of `DispNum(number, digits)` (UART2.c), as the list of characters it
pushes into the UART transmit register. -/
def DispNum (number digits : Nat) : List Char :=
  dispNumLoop number (dispNumDivisor digits)

/-- Embedding of `transmitVoltageADC` (PWM.c): sends the duty-cycle percentage
(3 digits), a space, the raw ADC value (4 digits) and a newline.  The
`uint8_t` type of `dutyPercent` is the `% 256`. -/
def transmitVoltageADC (s : Sys) : Sys :=
  { s with out := s.out
      ++ DispNum (s.pwmControl.currentDutyCycle * 100 / s.pwmControl.period % 256) 3
      ++ [' ']
      ++ DispNum s.pwmControl.adcValue 4
      ++ ['\n'] }

/-- Embedding of `_T1Interrupt` (main.c): software PWM tick.  Increments the
counter modulo the period, resolves the active duty cycle (base duty
when blinking is disabled), and drives the LED. -/
def T1Interrupt (s : Sys) : Sys :=
  let cnt := (s.pwmCounter + 1) % s.pwmControl.period
  let cur := if s.pwmControl.blinkEnabled = 0
    then s.pwmControl.baseDutyCycle
    else s.pwmControl.currentDutyCycle
  { s with
      pwmCounter := cnt
      pwmControl := { s.pwmControl with currentDutyCycle := cur }
      led := if cnt < cur then 1 else 0 }

/-- Embedding of `_T2Interrupt` (main.c): blink tick.  When blinking is enabled,
toggles `blinkState` and sets the duty cycle to `blinkDutyCycle`
during the on-phase and 0 during the off-phase. -/
def T2Interrupt (s : Sys) : Sys :=
  if s.pwmControl.blinkEnabled = 0 then s
  else
    let bs := cnot s.pwmControl.blinkState
    { s with pwmControl :=
        { s.pwmControl with
            blinkState := bs
            currentDutyCycle := if bs = 0 then 0 else s.pwmControl.blinkDutyCycle } }

/-- The per-button body of the loop in `IOcheck` (IOs.c): read the
level, and on a change set `pressed` on a 0→1 (release) edge and
record the new level as `prevState`. -/
def buttonSample (level : Nat) (b : ButtonState) : ButtonState :=
  let b1 := { b with newState := level }
  if b1.newState ≠ b1.prevState then
    let b2 := if b1.prevState = 0 ∧ b1.newState = 1 then { b1 with pressed := 1 } else b1
    { b2 with prevState := b2.newState }
  else b1

/-- Embedding of `IOcheck` (IOs.c): sample all three button lines.  `l1 l2 l3` are
the levels read from PB1/PB2/PB3 (1 = released, 0 = pressed). -/
def IOcheck (l1 l2 l3 : Nat) (s : Sys) : Sys :=
  { s with
      button0 := buttonSample l1 s.button0
      button1 := buttonSample l2 s.button1
      button2 := buttonSample l3 s.button2 }

/-- The flag-clearing loop at the end of each `main` iteration:
`buttons[i].pressed = 0` for all three buttons. -/
def clearPressedFlags (s : Sys) : Sys :=
  { s with
      button0 := { s.button0 with pressed := 0 }
      button1 := { s.button1 with pressed := 0 }
      button2 := { s.button2 with pressed := 0 } }

/-- Embedding of `handleStateTransition` (main.c), one control-loop pass.  `sample`
is the value `do_ADC()` returns if the pass reads the ADC.  The
`delay_ms(20)` in the OFF case only drives Timer3 (the excluded delay
collaborator) and so has no modelled effect. -/
def handleStateTransition (sample : Nat) (s : Sys) : Sys :=
  match s.currentState with
  | 0 => -- OFF_MODE
    let s1 := stopTimer2 (stopTimer1 (stopBlink { s with led := 0 }))
    if s1.button0.pressed ≠ 0 then { s1 with currentState := 2 }
    else if s1.button1.pressed ≠ 0 then { s1 with currentState := 1 }
    else s1
  | 1 => -- OFF_BLINK
    let s1 := blink s
    let s2 := updateBrightness s1.pwmControl.period sample s1
    if s2.button1.pressed ≠ 0 then stopBlink { s2 with currentState := 0 }
    else s2
  | 2 => -- ON_MODE
    let s1 := updateBrightness 0 sample s
    if s1.button0.pressed ≠ 0 then { s1 with currentState := 0 }
    else if s1.button1.pressed ≠ 0 then { s1 with currentState := 3 }
    else if s1.button2.pressed ≠ 0 then { s1 with currentState := 4 }
    else s1
  | 3 => -- ON_BLINK
    let s1 := updateBrightness 0 sample (blink s)
    if s1.button1.pressed ≠ 0 then stopBlink { s1 with currentState := 2 }
    else if s1.button2.pressed ≠ 0 then { s1 with currentState := 5 }
    else s1
  | 4 => -- TRANSMIT_UART_ON
    let s1 := transmitVoltageADC (updateBrightness 0 sample s)
    if s1.button0.pressed ≠ 0 then { s1 with currentState := 0 }
    else if s1.button1.pressed ≠ 0 then { s1 with currentState := 5 }
    else if s1.button2.pressed ≠ 0 then { s1 with currentState := 2 }
    else s1
  | 5 => -- TRANSMIT_UART_BLINK
    let s1 := transmitVoltageADC (updateBrightness 0 sample (blink s))
    if s1.button1.pressed ≠ 0 then stopBlink { s1 with currentState := 4 }
    else if s1.button2.pressed ≠ 0 then { s1 with currentState := 3 }
    else s1
  | _ + 6 => -- default: undefined state value resets to OFF_MODE
    { s with currentState := 0 }

/-- Boot state: `pwmControl` initializer from PWM.c (the 7th field
`adcValue` is zero-filled by C aggregate initialization), `buttons`
initializer from IOs.c, `systemState = OFF_MODE`, LED latch cleared by
`IOinit`, timers off at reset, nothing transmitted yet. -/
def initSys : Sys :=
  { pwmControl := ⟨50, 0, 0, 0, 0, 0, 0⟩
    pwmCounter := 0
    currentState := 0
    led := 0
    button0 := ⟨0, 1, 1⟩
    button1 := ⟨0, 1, 1⟩
    button2 := ⟨0, 1, 1⟩
    timer1 := ⟨0, 0, 0⟩
    timer2 := ⟨0, 0, 0⟩
    out := [] }

/-- States reachable from boot under the program's own transitions:
control-loop passes (with a 10-bit ADC sample), the main loop's flag
clearing, button sampling at arbitrary line levels, and the two timer
interrupts. -/
inductive Reachable : Sys → Prop where
  | boot : Reachable initSys
  | pass {s} (sample : Nat) (hs : sample ≤ 1023) (h : Reachable s) :
      Reachable (handleStateTransition sample s)
  | clear {s} (h : Reachable s) : Reachable (clearPressedFlags s)
  | io {s} (l1 l2 l3 : Nat) (h : Reachable s) : Reachable (IOcheck l1 l2 l3 s)
  | t1 {s} (h : Reachable s) : Reachable (T1Interrupt s)
  | t2 {s} (h : Reachable s) : Reachable (T2Interrupt s)

/-! ### Projection lemmas for the operations -/

@[simp] lemma ub_currentState (o a : Nat) (s : Sys) :
    (updateBrightness o a s).currentState = s.currentState := by
  simp [updateBrightness, startTimer1]; split_ifs <;> rfl

@[simp] lemma ub_led (o a : Nat) (s : Sys) :
    (updateBrightness o a s).led = s.led := by
  simp [updateBrightness, startTimer1]; split_ifs <;> rfl

@[simp] lemma ub_pwmCounter (o a : Nat) (s : Sys) :
    (updateBrightness o a s).pwmCounter = s.pwmCounter := by
  simp [updateBrightness, startTimer1]; split_ifs <;> rfl

@[simp] lemma ub_button0 (o a : Nat) (s : Sys) :
    (updateBrightness o a s).button0 = s.button0 := by
  simp [updateBrightness, startTimer1]; split_ifs <;> rfl

@[simp] lemma ub_button1 (o a : Nat) (s : Sys) :
    (updateBrightness o a s).button1 = s.button1 := by
  simp [updateBrightness, startTimer1]; split_ifs <;> rfl

@[simp] lemma ub_button2 (o a : Nat) (s : Sys) :
    (updateBrightness o a s).button2 = s.button2 := by
  simp [updateBrightness, startTimer1]; split_ifs <;> rfl

@[simp] lemma ub_out (o a : Nat) (s : Sys) :
    (updateBrightness o a s).out = s.out := by
  simp [updateBrightness, startTimer1]; split_ifs <;> rfl

@[simp] lemma ub_timer2 (o a : Nat) (s : Sys) :
    (updateBrightness o a s).timer2 = s.timer2 := by
  simp [updateBrightness, startTimer1]; split_ifs <;> rfl

@[simp] lemma ub_timer1 (o a : Nat) (s : Sys) :
    (updateBrightness o a s).timer1 = ⟨s.pwmControl.period, s.timer1.tmr, 1⟩ := by
  simp [updateBrightness, startTimer1]; split_ifs <;> rfl

@[simp] lemma ub_period (o a : Nat) (s : Sys) :
    (updateBrightness o a s).pwmControl.period = s.pwmControl.period := by
  simp [updateBrightness, startTimer1]; split_ifs <;> rfl

@[simp] lemma ub_adcValue (o a : Nat) (s : Sys) :
    (updateBrightness o a s).pwmControl.adcValue = a := by
  simp [updateBrightness, startTimer1]; split_ifs <;> rfl

@[simp] lemma ub_blinkEnabled (o a : Nat) (s : Sys) :
    (updateBrightness o a s).pwmControl.blinkEnabled = s.pwmControl.blinkEnabled := by
  simp [updateBrightness, startTimer1]; split_ifs <;> simp_all

@[simp] lemma ub_blinkState (o a : Nat) (s : Sys) :
    (updateBrightness o a s).pwmControl.blinkState = s.pwmControl.blinkState := by
  simp [updateBrightness, startTimer1]; split_ifs <;> rfl

lemma ub_baseDuty (o a : Nat) (s : Sys) :
    (updateBrightness o a s).pwmControl.baseDutyCycle
      = if o = 0 then a * s.pwmControl.period / 1023 % 256 else o := by
  simp [updateBrightness, startTimer1]; split_ifs <;> simp_all

lemma ub_blinkDuty (o a : Nat) (s : Sys) :
    (updateBrightness o a s).pwmControl.blinkDutyCycle
      = if s.pwmControl.blinkEnabled = 0 then s.pwmControl.blinkDutyCycle
        else (updateBrightness o a s).pwmControl.baseDutyCycle := by
  simp [updateBrightness, startTimer1]; split_ifs <;> simp_all

lemma ub_currentDuty (o a : Nat) (s : Sys) :
    (updateBrightness o a s).pwmControl.currentDutyCycle
      = if s.pwmControl.blinkEnabled = 0 then (updateBrightness o a s).pwmControl.baseDutyCycle
        else if s.pwmControl.blinkState = 0 then 0
        else (updateBrightness o a s).pwmControl.baseDutyCycle := by
  simp [updateBrightness, startTimer1]; split_ifs <;> simp_all

@[simp] lemma t1_currentState (s : Sys) : (T1Interrupt s).currentState = s.currentState := rfl

@[simp] lemma t1_button0 (s : Sys) : (T1Interrupt s).button0 = s.button0 := rfl

@[simp] lemma t1_button1 (s : Sys) : (T1Interrupt s).button1 = s.button1 := rfl

@[simp] lemma t1_button2 (s : Sys) : (T1Interrupt s).button2 = s.button2 := rfl

@[simp] lemma t1_out (s : Sys) : (T1Interrupt s).out = s.out := rfl

@[simp] lemma t1_period (s : Sys) :
    (T1Interrupt s).pwmControl.period = s.pwmControl.period := rfl

@[simp] lemma t1_baseDuty (s : Sys) :
    (T1Interrupt s).pwmControl.baseDutyCycle = s.pwmControl.baseDutyCycle := rfl

@[simp] lemma t1_blinkDuty (s : Sys) :
    (T1Interrupt s).pwmControl.blinkDutyCycle = s.pwmControl.blinkDutyCycle := rfl

@[simp] lemma t1_blinkEnabled (s : Sys) :
    (T1Interrupt s).pwmControl.blinkEnabled = s.pwmControl.blinkEnabled := rfl

lemma t1_currentDuty (s : Sys) :
    (T1Interrupt s).pwmControl.currentDutyCycle
      = if s.pwmControl.blinkEnabled = 0 then s.pwmControl.baseDutyCycle
        else s.pwmControl.currentDutyCycle := rfl

@[simp] lemma t2_currentState (s : Sys) : (T2Interrupt s).currentState = s.currentState := by
  simp [T2Interrupt]; split_ifs <;> rfl

@[simp] lemma t2_button0 (s : Sys) : (T2Interrupt s).button0 = s.button0 := by
  simp [T2Interrupt]; split_ifs <;> rfl

@[simp] lemma t2_button1 (s : Sys) : (T2Interrupt s).button1 = s.button1 := by
  simp [T2Interrupt]; split_ifs <;> rfl

@[simp] lemma t2_button2 (s : Sys) : (T2Interrupt s).button2 = s.button2 := by
  simp [T2Interrupt]; split_ifs <;> rfl

@[simp] lemma t2_out (s : Sys) : (T2Interrupt s).out = s.out := by
  simp [T2Interrupt]; split_ifs <;> rfl

@[simp] lemma t2_period (s : Sys) :
    (T2Interrupt s).pwmControl.period = s.pwmControl.period := by
  simp [T2Interrupt]; split_ifs <;> rfl

@[simp] lemma t2_baseDuty (s : Sys) :
    (T2Interrupt s).pwmControl.baseDutyCycle = s.pwmControl.baseDutyCycle := by
  simp [T2Interrupt]; split_ifs <;> rfl

@[simp] lemma t2_blinkDuty (s : Sys) :
    (T2Interrupt s).pwmControl.blinkDutyCycle = s.pwmControl.blinkDutyCycle := by
  simp [T2Interrupt]; split_ifs <;> rfl

@[simp] lemma t2_blinkEnabled (s : Sys) :
    (T2Interrupt s).pwmControl.blinkEnabled = s.pwmControl.blinkEnabled := by
  simp [T2Interrupt]; split_ifs <;> rfl

lemma t2_currentDuty (s : Sys) (h : s.pwmControl.blinkEnabled ≠ 0) :
    (T2Interrupt s).pwmControl.currentDutyCycle
      = if cnot s.pwmControl.blinkState = 0 then 0 else s.pwmControl.blinkDutyCycle := by
  simp [T2Interrupt, h]

/-! ### Arithmetic of the sensor-to-duty scaling -/

/-- The scaled duty `(uint8_t)(sample * period / 1023)` never exceeds
the period when the sample is a valid 10-bit code. -/
lemma scaled_duty_le (a p : Nat) (ha : a ≤ 1023) : a * p / 1023 % 256 ≤ p := by
  have h1 : a * p ≤ 1023 * p := Nat.mul_le_mul_right p ha
  have h2 : a * p / 1023 ≤ 1023 * p / 1023 := Nat.div_le_div_right h1
  have h3 : 1023 * p / 1023 = p := Nat.mul_div_cancel_left p (by norm_num)
  have h4 : a * p / 1023 % 256 ≤ a * p / 1023 := Nat.mod_le _ _
  omega

/-- For an 8-bit period the `(uint8_t)` cast on the scaled duty is the
identity. -/
lemma scaled_duty_eq (a p : Nat) (ha : a ≤ 1023) (hp : p ≤ 255) :
    a * p / 1023 % 256 = a * p / 1023 := by
  have h1 : a * p ≤ 1023 * p := Nat.mul_le_mul_right p ha
  have h2 : a * p / 1023 ≤ 1023 * p / 1023 := Nat.div_le_div_right h1
  have h3 : 1023 * p / 1023 = p := Nat.mul_div_cancel_left p (by norm_num)
  exact Nat.mod_eq_of_lt (by omega)

/-! ### Unfoldings of `DispNum` at the two widths used by telemetry -/

lemma dispNumLoop_unfold (n d : Nat) :
    dispNumLoop n d = if d = 0 then []
      else Char.ofNat (48 + n / d % 10) :: dispNumLoop n (d / 10) := by
  rw [dispNumLoop]
  simp

/-- Calling `DispNum(number, 3)` emits exactly the three zero-padded decimal
digits of `number % 1000`. -/
lemma DispNum_three (n : Nat) :
    DispNum n 3 = [Char.ofNat (48 + n / 100 % 10),
                   Char.ofNat (48 + n / 10 % 10),
                   Char.ofNat (48 + n % 10)] := by
  have hd : dispNumDivisor 3 = 100 := by norm_num [dispNumDivisor]
  rw [DispNum, hd, dispNumLoop_unfold]
  norm_num
  rw [dispNumLoop_unfold]
  norm_num
  rw [dispNumLoop_unfold]
  norm_num
  rw [dispNumLoop_unfold]
  norm_num

/-- Calling `DispNum(number, 4)` emits exactly the four zero-padded decimal
digits of `number % 10000`. -/
lemma DispNum_four (n : Nat) :
    DispNum n 4 = [Char.ofNat (48 + n / 1000 % 10),
                   Char.ofNat (48 + n / 100 % 10),
                   Char.ofNat (48 + n / 10 % 10),
                   Char.ofNat (48 + n % 10)] := by
  have hd : dispNumDivisor 4 = 1000 := by norm_num [dispNumDivisor]
  rw [DispNum, hd, dispNumLoop_unfold]
  norm_num
  rw [dispNumLoop_unfold]
  norm_num
  rw [dispNumLoop_unfold]
  norm_num
  rw [dispNumLoop_unfold]
  norm_num
  rw [dispNumLoop_unfold]
  norm_num

/-! ### The reachable-state invariant: the period is the constant 50
and every duty-cycle field stays within it -/

lemma ub_preserves_inv (o a : Nat) (s : Sys) (ha : a ≤ 1023)
    (ho : o = 0 ∨ o = s.pwmControl.period)
    (hper : s.pwmControl.period = 50)
    (hbl : s.pwmControl.blinkDutyCycle ≤ 50) :
    (updateBrightness o a s).pwmControl.baseDutyCycle ≤ 50 ∧
    (updateBrightness o a s).pwmControl.blinkDutyCycle ≤ 50 ∧
    (updateBrightness o a s).pwmControl.currentDutyCycle ≤ 50 := by
  have hbase : (updateBrightness o a s).pwmControl.baseDutyCycle ≤ 50 := by
    rw [ub_baseDuty]
    rcases ho with ho | ho
    · simpa [ho, hper] using scaled_duty_le a 50 ha
    · rcases Nat.eq_zero_or_pos o with h0 | h0
      · simpa [h0, hper] using scaled_duty_le a 50 ha
      · simp [Nat.pos_iff_ne_zero.mp h0, ho, hper]
  refine ⟨hbase, ?_, ?_⟩
  · rw [ub_blinkDuty]
    split_ifs <;> [exact hbl; exact hbase]
  · rw [ub_currentDuty]
    split_ifs <;> simp [hbase]

lemma hst_preserves_inv (a : Nat) (s : Sys) (ha : a ≤ 1023)
    (hper : s.pwmControl.period = 50)
    (hb : s.pwmControl.baseDutyCycle ≤ 50)
    (hbl : s.pwmControl.blinkDutyCycle ≤ 50)
    (hc : s.pwmControl.currentDutyCycle ≤ 50) :
    (handleStateTransition a s).pwmControl.period = 50 ∧
    (handleStateTransition a s).pwmControl.baseDutyCycle ≤ 50 ∧
    (handleStateTransition a s).pwmControl.blinkDutyCycle ≤ 50 ∧
    (handleStateTransition a s).pwmControl.currentDutyCycle ≤ 50 := by
  obtain ⟨pwm, cnt, mode, led, b0, b1, b2, t1, t2, out⟩ := s
  rcases mode with _ | _ | _ | _ | _ | _ | m
  · -- OFF_MODE: no duty field is written
    simp only [handleStateTransition]
    split_ifs <;>
      simp_all [stopBlink, stopTimer1, stopTimer2]
  · -- OFF_BLINK: updateBrightness with override = period
    have h := ub_preserves_inv pwm.period a (blink ⟨pwm, cnt, 1, led, b0, b1, b2, t1, t2, out⟩)
      ha (Or.inr rfl) hper hbl
    simp only [handleStateTransition]
    split_ifs <;>
      simp_all [blink, startTimer2, stopBlink, stopTimer2]
  · -- ON_MODE
    have h := ub_preserves_inv 0 a ⟨pwm, cnt, 2, led, b0, b1, b2, t1, t2, out⟩
      ha (Or.inl rfl) hper hbl
    simp only [handleStateTransition]
    split_ifs <;> simp_all
  · -- ON_BLINK
    have h := ub_preserves_inv 0 a (blink ⟨pwm, cnt, 3, led, b0, b1, b2, t1, t2, out⟩)
      ha (Or.inl rfl) hper hbl
    simp only [handleStateTransition]
    split_ifs <;>
      simp_all [blink, startTimer2, stopBlink, stopTimer2]
  · -- TRANSMIT_UART_ON
    have h := ub_preserves_inv 0 a ⟨pwm, cnt, 4, led, b0, b1, b2, t1, t2, out⟩
      ha (Or.inl rfl) hper hbl
    simp only [handleStateTransition]
    split_ifs <;> simp_all [transmitVoltageADC]
  · -- TRANSMIT_UART_BLINK
    have h := ub_preserves_inv 0 a (blink ⟨pwm, cnt, 5, led, b0, b1, b2, t1, t2, out⟩)
      ha (Or.inl rfl) hper hbl
    simp only [handleStateTransition]
    split_ifs <;>
      simp_all [blink, startTimer2, stopBlink, stopTimer2, transmitVoltageADC]
  · -- default
    simp_all [handleStateTransition]

/-- In every reachable state the PWM period is still the configured
constant 50, and every duty-cycle field is within `[0, period]`. -/
lemma reachable_inv {s : Sys} (h : Reachable s) :
    s.pwmControl.period = 50 ∧
    s.pwmControl.baseDutyCycle ≤ 50 ∧
    s.pwmControl.blinkDutyCycle ≤ 50 ∧
    s.pwmControl.currentDutyCycle ≤ 50 := by
  induction h with
  | boot => exact ⟨rfl, by norm_num [initSys], by norm_num [initSys], by norm_num [initSys]⟩
  | pass sample hs h ih => exact hst_preserves_inv sample _ hs ih.1 ih.2.1 ih.2.2.1 ih.2.2.2
  | clear h ih => simpa [clearPressedFlags] using ih
  | io l1 l2 l3 h ih => simpa [IOcheck] using ih
  | t1 h ih =>
      refine ⟨ih.1, ih.2.1, ih.2.2.1, ?_⟩
      rw [t1_currentDuty]
      split_ifs <;> [exact ih.2.1; exact ih.2.2.2]
  | t2 h ih =>
      rename_i s'
      refine ⟨by simp [ih.1], by simp [ih.2.1], by simp [ih.2.2.1], ?_⟩
      by_cases hb : s'.pwmControl.blinkEnabled = 0
      · simp [T2Interrupt, hb, ih.2.2.2]
      · rw [t2_currentDuty _ hb]
        split_ifs <;> simp [ih.2.2.1]

/-! ### Spec-side definitions used for refinement statements -/

/-- The §4.5 mode-transition table of the specification, transcribed:
for each current mode and the three one-shot button flags (C booleans,
nonzero = pressed event), the table's next mode, with PB1 > PB2 > PB3
priority, no change when no flag fires, and any mode value outside the
six defined ones resetting to `Off`. -/
def nextStateSpec (m p1 p2 p3 : Nat) : Nat :=
  match m with
  | 0 => if p1 ≠ 0 then 2 else if p2 ≠ 0 then 1 else 0
  | 1 => if p2 ≠ 0 then 0 else 1
  | 2 => if p1 ≠ 0 then 0 else if p2 ≠ 0 then 3 else if p3 ≠ 0 then 4 else 2
  | 3 => if p2 ≠ 0 then 2 else if p3 ≠ 0 then 5 else 3
  | 4 => if p1 ≠ 0 then 0 else if p2 ≠ 0 then 5 else if p3 ≠ 0 then 2 else 4
  | 5 => if p2 ≠ 0 then 4 else if p3 ≠ 0 then 3 else 5
  | _ + 6 => 0

/-- The §6 telemetry line, transcribed from the spec: the duty
percentage as a 3-digit decimal field, one space, the sample as a
4-digit decimal field, and a newline — nothing else. -/
def telemetryChars (p a : Nat) : List Char :=
  [Char.ofNat (48 + p / 100 % 10), Char.ofNat (48 + p / 10 % 10), Char.ofNat (48 + p % 10),
   ' ',
   Char.ofNat (48 + a / 1000 % 10), Char.ofNat (48 + a / 100 % 10),
   Char.ofNat (48 + a / 10 % 10), Char.ofNat (48 + a % 10),
   '\n']

/-! ### Concrete states used by counterexamples and witnesses -/

/-- A state reached from boot by: press+release PB1 (Off → On pass),
clear flags, press+release PB2 (On → OnBlink pass), clear flags,
press+release PB2 again, and a final pass in OnBlink that disables
blinking while the blink modulator was in its dark phase. -/
def cexState : Sys :=
  handleStateTransition 512 (IOcheck 1 1 1 (IOcheck 1 0 1
    (clearPressedFlags (handleStateTransition 512 (IOcheck 1 1 1 (IOcheck 1 0 1
      (clearPressedFlags (handleStateTransition 512 (IOcheck 1 1 1 (IOcheck 0 1 1
        initSys))))))))))

/-- A blinking state in the illuminated phase, for instantiating
blink-related theorems. -/
def exBlinkPhase : Sys :=
  { initSys with pwmControl := ⟨50, 25, 25, 25, 1, 1, 512⟩ }

/-- A state sitting in `TRANSMIT_UART_ON`, for instantiating the
telemetry theorem. -/
def exTransmitOn : Sys :=
  { initSys with currentState := 4 }

/-! ### Claims -/

/-- Claim C1: one control-loop pass computes the next mode exactly per
the §4.5 table — from each of the six modes the transition taken is
the table's entry for the highest-priority one-shot flag (PB1 > PB2 >
PB3, as applicable per mode), the mode is unchanged when no flag is
set, and any mode value outside the six defined ones resets to Off.
At most one transition per pass holds because the pass is a function
of the pre-pass mode and flags. -/
theorem handleStateTransition_matches_table (sample : Nat) (s : Sys) :
    (handleStateTransition sample s).currentState =
      nextStateSpec s.currentState s.button0.pressed s.button1.pressed s.button2.pressed := by
  obtain ⟨pwm, cnt, mode, led, b0, b1, b2, t1, t2, out⟩ := s
  rcases mode with _ | _ | _ | _ | _ | _ | m <;>
    simp [handleStateTransition, nextStateSpec, stopBlink, stopTimer1, stopTimer2,
      blink, startTimer2, transmitVoltageADC] <;>
    split_ifs <;> simp_all

/-- Claim C2 counterexample: a reachable state (produced by disabling
blink during the dark phase) in which `blinkEnabled` is false yet
`activeDuty` (0) differs from `baseDuty` (25) — so the claimed
invariant does not hold at every point between `stopBlink()` and the
following brightness update or timer tick. -/
theorem stopBlink_leaves_stale_duty :
    Reachable cexState ∧
    cexState.pwmControl.blinkEnabled = 0 ∧
    cexState.pwmControl.currentDutyCycle = 0 ∧
    cexState.pwmControl.baseDutyCycle = 25 ∧
    cexState.pwmControl.currentDutyCycle ≠ cexState.pwmControl.baseDutyCycle :=
  ⟨Reachable.pass 512 (by norm_num) (Reachable.io 1 1 1 (Reachable.io 1 0 1
      (Reachable.clear (Reachable.pass 512 (by norm_num) (Reachable.io 1 1 1 (Reachable.io 1 0 1
        (Reachable.clear (Reachable.pass 512 (by norm_num) (Reachable.io 1 1 1 (Reachable.io 0 1 1
          Reachable.boot)))))))))),
   by decide, by decide, by decide, by decide⟩

/-- Claim C2 (amended): in every reachable state `0 ≤ activeDuty ≤
period`; the correlation clauses hold at the operation boundaries
rather than at every intermediate point: when `blinkEnabled` is false
a PWM tick re-establishes `activeDuty = baseDuty`, when it is true a
blink tick leaves `activeDuty` equal to `blinkDuty` or `0`, and a
brightness update establishes the clause matching the current blink
flag — but between `stopBlink()`/`blink()` and the next such event
`activeDuty` retains its previous value. -/
theorem duty_invariant_amended (s : Sys) (o a : Nat) (h : Reachable s) :
    s.pwmControl.currentDutyCycle ≤ s.pwmControl.period ∧
    (s.pwmControl.blinkEnabled = 0 →
      (T1Interrupt s).pwmControl.currentDutyCycle
        = (T1Interrupt s).pwmControl.baseDutyCycle) ∧
    (s.pwmControl.blinkEnabled ≠ 0 →
      (T2Interrupt s).pwmControl.currentDutyCycle
          = (T2Interrupt s).pwmControl.blinkDutyCycle ∨
      (T2Interrupt s).pwmControl.currentDutyCycle = 0) ∧
    ((updateBrightness o a s).pwmControl.blinkEnabled = 0 →
      (updateBrightness o a s).pwmControl.currentDutyCycle
        = (updateBrightness o a s).pwmControl.baseDutyCycle) ∧
    ((updateBrightness o a s).pwmControl.blinkEnabled ≠ 0 →
      (updateBrightness o a s).pwmControl.currentDutyCycle
          = (updateBrightness o a s).pwmControl.blinkDutyCycle ∨
      (updateBrightness o a s).pwmControl.currentDutyCycle = 0) := by
  obtain ⟨hper, hbase, hblink, hcur⟩ := reachable_inv h
  refine ⟨by omega, ?_, ?_, ?_, ?_⟩
  · intro hb
    simp [t1_currentDuty, hb]
  · intro hb
    rw [t2_currentDuty _ hb]
    split_ifs with hbs
    · exact Or.inr rfl
    · exact Or.inl (by simp)
  · intro hb
    rw [ub_blinkEnabled] at hb
    simp [ub_currentDuty, hb]
  · intro hb
    rw [ub_blinkEnabled] at hb
    by_cases hbs : s.pwmControl.blinkState = 0
    · exact Or.inr (by simp [ub_currentDuty, hb, hbs])
    · exact Or.inl (by simp [ub_currentDuty, ub_blinkDuty, hb, hbs])

/-- Claim C2 (amended) witness: the bound instantiated at the boot
state (with override 0 and sample 512 for the update clauses). -/
theorem duty_invariant_amended_witness :
    initSys.pwmControl.currentDutyCycle ≤ initSys.pwmControl.period :=
  (duty_invariant_amended initSys 0 512 Reachable.boot).1

/-- Claim C3: `updateBrightness` stores the fresh sample in
`adcValue`; with the override absent (0) it sets `baseDutyCycle =
floor(sample * period / 1023)`, with an override present it sets
`baseDutyCycle` to the override directly; then if blink is enabled it
snapshots `blinkDutyCycle = baseDutyCycle`, and otherwise it sets
`currentDutyCycle = baseDutyCycle`. -/
theorem updateBrightness_spec (s : Sys) (o sample : Nat) (hs : sample ≤ 1023)
    (hp : s.pwmControl.period ≤ 255) :
    (updateBrightness o sample s).pwmControl.adcValue = sample ∧
    (o = 0 → (updateBrightness o sample s).pwmControl.baseDutyCycle
        = sample * s.pwmControl.period / 1023) ∧
    (o ≠ 0 → (updateBrightness o sample s).pwmControl.baseDutyCycle = o) ∧
    (s.pwmControl.blinkEnabled ≠ 0 →
      (updateBrightness o sample s).pwmControl.blinkDutyCycle
        = (updateBrightness o sample s).pwmControl.baseDutyCycle) ∧
    (s.pwmControl.blinkEnabled = 0 →
      (updateBrightness o sample s).pwmControl.currentDutyCycle
        = (updateBrightness o sample s).pwmControl.baseDutyCycle) := by
  refine ⟨ub_adcValue o sample s, ?_, ?_, ?_, ?_⟩
  · intro ho
    rw [ub_baseDuty, if_pos ho]
    exact scaled_duty_eq sample s.pwmControl.period hs hp
  · intro ho
    rw [ub_baseDuty, if_neg ho]
  · intro hb
    rw [ub_blinkDuty, if_neg hb]
  · intro hb
    rw [ub_currentDuty, if_pos hb]

/-- Claim C3 witness: the spec instantiated at boot with sample 512
and no override. -/
theorem updateBrightness_spec_witness :
    (updateBrightness 0 512 initSys).pwmControl.baseDutyCycle
      = 512 * initSys.pwmControl.period / 1023 :=
  (updateBrightness_spec initSys 0 512 (by norm_num) (by decide)).2.1 rfl

/-- Claim C4: for a positive period and a 10-bit sample, the
sensor-path duty `floor(sample * period / 1023)` lies in
`[0, period]`; and sample 512 with the boot period 50 yields 25. -/
theorem baseDuty_in_range (s : Sys) (sample : Nat)
    (hper : 0 < s.pwmControl.period) (hs : sample ≤ 1023) :
    (updateBrightness 0 sample s).pwmControl.baseDutyCycle ≤ s.pwmControl.period ∧
    (updateBrightness 0 512 initSys).pwmControl.baseDutyCycle = 25 := by
  constructor
  · rw [ub_baseDuty]
    simpa using scaled_duty_le sample s.pwmControl.period hs
  · decide

/-- Claim C4 witness: instantiated at boot with sample 512. -/
theorem baseDuty_in_range_witness :
    (updateBrightness 0 512 initSys).pwmControl.baseDutyCycle
      ≤ initSys.pwmControl.period :=
  (baseDuty_in_range initSys 512 (by decide) (by norm_num)).1

/-- Claim C5: from the boot button state, feeding PB1 the level
sequence released, released, pressed, released over four `IOcheck`
calls leaves the pressed flag clear after the first three calls and
sets it at the fourth (the released sample that follows the pressed
sample): exactly one press event. -/
theorem edge_detection_trace :
    (IOcheck 1 1 1 initSys).button0.pressed = 0 ∧
    (IOcheck 1 1 1 (IOcheck 1 1 1 initSys)).button0.pressed = 0 ∧
    (IOcheck 0 1 1 (IOcheck 1 1 1 (IOcheck 1 1 1 initSys))).button0.pressed = 0 ∧
    (IOcheck 1 1 1 (IOcheck 0 1 1 (IOcheck 1 1 1 (IOcheck 1 1 1 initSys)))).button0.pressed
      = 1 := by
  decide

/-- Claim C6: from any state with blinking enabled, disabling blink
and then taking one PWM generator tick leaves the active duty cycle
equal to the base duty cycle. -/
theorem stopBlink_then_tick_restores_base (s : Sys)
    (h : s.pwmControl.blinkEnabled ≠ 0) :
    (T1Interrupt (stopBlink s)).pwmControl.currentDutyCycle
      = s.pwmControl.baseDutyCycle := by
  simp [T1Interrupt, stopBlink, stopTimer2]

/-- Claim C6 witness: instantiated at a blinking state in the
illuminated phase. -/
theorem stopBlink_then_tick_restores_base_witness :
    (T1Interrupt (stopBlink exBlinkPhase)).pwmControl.currentDutyCycle
      = exBlinkPhase.pwmControl.baseDutyCycle :=
  stopBlink_then_tick_restores_base exBlinkPhase (by decide)

/-- Claim C7: a control-loop pass in `TRANSMIT_UART_ON` or
`TRANSMIT_UART_BLINK` appends to the serial output exactly one
telemetry line: the duty percentage `activeDuty*100/period` as a
3-digit decimal field, one space, the fresh sample as a 4-digit
decimal field, and a newline — no other characters. -/
theorem telemetry_line_format (s : Sys) (sample : Nat)
    (h : s.currentState = 4 ∨ s.currentState = 5) :
    (handleStateTransition sample s).out =
      s.out ++ telemetryChars
        ((handleStateTransition sample s).pwmControl.currentDutyCycle * 100
          / s.pwmControl.period % 256) sample := by
  obtain ⟨pwm, cnt, mode, led, b0, b1, b2, t1, t2, out⟩ := s
  dsimp only at h
  rcases h with h | h <;> subst h <;>
    simp [handleStateTransition, transmitVoltageADC, blink, startTimer2, stopBlink,
      stopTimer2, telemetryChars, DispNum_three, DispNum_four] <;>
    split_ifs <;> simp_all

/-- Claim C7 witness: instantiated in `TRANSMIT_UART_ON` with
sample 512. -/
theorem telemetry_line_format_witness :
    (handleStateTransition 512 exTransmitOn).out =
      exTransmitOn.out ++ telemetryChars
        ((handleStateTransition 512 exTransmitOn).pwmControl.currentDutyCycle * 100
          / exTransmitOn.pwmControl.period % 256) 512 :=
  telemetry_line_format exTransmitOn 512 (Or.inl rfl)

/-- Claim C8 counterexample: `updateBrightness` does change state
outside the `PwmState` record — it starts Timer1 (writes PR1 and the
TON bit), so its Timer1 state after the call differs from before. -/
theorem updateBrightness_touches_timer1 :
    (updateBrightness 0 512 initSys).timer1 ≠ initSys.timer1 := by
  decide

/-- Claim C8 (amended): `updateBrightness` returns nothing and
modifies only the `PwmState` record and Timer1, which it starts with
PR1 set to the PWM period; the mode, LED latch, PWM counter, buttons,
serial output and Timer2 are all unchanged. -/
theorem updateBrightness_frame (o a : Nat) (s : Sys) :
    (updateBrightness o a s).currentState = s.currentState ∧
    (updateBrightness o a s).led = s.led ∧
    (updateBrightness o a s).pwmCounter = s.pwmCounter ∧
    (updateBrightness o a s).button0 = s.button0 ∧
    (updateBrightness o a s).button1 = s.button1 ∧
    (updateBrightness o a s).button2 = s.button2 ∧
    (updateBrightness o a s).out = s.out ∧
    (updateBrightness o a s).timer2 = s.timer2 ∧
    (updateBrightness o a s).timer1 = ⟨s.pwmControl.period, s.timer1.tmr, 1⟩ := by
  simp

/-- Claim C9: in every reachable state the PWM period equals the
constant 50 fixed at configuration time — it is never written after
boot — so the counter wrap in the PWM tick and the duty-percentage
division in telemetry always divide by a positive period. -/
theorem period_always_fifty (s : Sys) (h : Reachable s) :
    s.pwmControl.period = 50 ∧ 0 < s.pwmControl.period := by
  have := (reachable_inv h).1
  omega

/-- Claim C9 witness: at the boot state. -/
theorem period_always_fifty_witness :
    initSys.pwmControl.period = 50 ∧ 0 < initSys.pwmControl.period :=
  period_always_fifty initSys Reachable.boot

/-- Claim C10: `stopBlink` clears only `blinkEnabled` inside
`PwmState` (stopping the blink timer as its only other effect); the
blink phase, all duty cycles, the sample and the period are retained,
so the active duty keeps its last blink-phase value, and re-enabling
blink resumes from the retained phase: the next blink tick toggles
that phase rather than starting from a fixed one. -/
theorem stopBlink_frame (s : Sys) :
    (stopBlink s).pwmControl.blinkEnabled = 0 ∧
    (stopBlink s).pwmControl.period = s.pwmControl.period ∧
    (stopBlink s).pwmControl.baseDutyCycle = s.pwmControl.baseDutyCycle ∧
    (stopBlink s).pwmControl.blinkDutyCycle = s.pwmControl.blinkDutyCycle ∧
    (stopBlink s).pwmControl.currentDutyCycle = s.pwmControl.currentDutyCycle ∧
    (stopBlink s).pwmControl.blinkState = s.pwmControl.blinkState ∧
    (stopBlink s).pwmControl.adcValue = s.pwmControl.adcValue ∧
    (stopBlink s).currentState = s.currentState ∧
    (stopBlink s).led = s.led ∧
    (stopBlink s).pwmCounter = s.pwmCounter ∧
    (stopBlink s).button0 = s.button0 ∧
    (stopBlink s).button1 = s.button1 ∧
    (stopBlink s).button2 = s.button2 ∧
    (stopBlink s).out = s.out ∧
    (stopBlink s).timer1 = s.timer1 ∧
    (stopBlink s).timer2 = ⟨0, 0, 0⟩ ∧
    (blink (stopBlink s)).pwmControl.blinkState = s.pwmControl.blinkState ∧
    (T2Interrupt (blink (stopBlink s))).pwmControl.blinkState
      = cnot s.pwmControl.blinkState ∧
    (T2Interrupt (blink (stopBlink s))).pwmControl.currentDutyCycle
      = (if cnot s.pwmControl.blinkState = 0 then 0 else s.pwmControl.blinkDutyCycle) := by
  simp [stopBlink, stopTimer2, blink, startTimer2, T2Interrupt]

end LedCtrl
